import Mathlib

/-
Verification of the marketplace client's session-continuity and
state-consistency layer.

The definitions below are a shallow embedding of:
  - the axios response interceptor and refresh queue
    (src/frontend/src/api/index.ts),
  - the auth store's logout and proactive-refresh timer
    (src/frontend/src/stores/authStore.ts),
  - the cart store's optimistic mutations
    (src/frontend/src/stores/useCartStore.ts),
  - the cart row component with its debounced quantity edits
    (src/components/CartItemRow.tsx).

The client is single-threaded (JS event loop); suspension points are network
responses and the debounce timer, so every concurrent behaviour is an
interleaving of the atomic synchronous blocks modelled here.
-/

namespace Marketplace

/- ----------------------------------------------------------------
   Session coordinator: the axios response interceptor
   (src/frontend/src/api/index.ts, lines 12-76).
   ---------------------------------------------------------------- -/

/-- A request configuration as the response interceptor sees it:
its url and the retry flag the interceptor sets on the request that
triggered a refresh episode (the _retry field set on originalRequest).
The id field identifies the caller so replay order can be observed. -/
structure Req where
  id : Nat
  url : String
  retry : Bool
deriving DecidableEq, Repr

/-- The url of the credential-renewal call, compared against
originalRequest.url in the interceptor. -/
def refreshUrl : String := "/api/token/refresh/"

/-- The interceptor's module-level state: the isRefreshing flag, the
failedQueue of pending requests (kept in enqueue order), the request that
triggered the current episode (the local originalRequest of the refreshing
branch, held so its replay can be observed), and an instrumentation counter
of renewal network calls issued. -/
structure CoordState where
  isRefreshing : Bool
  failedQueue : List Req
  triggering : Option Req
  renewalCalls : Nat
deriving DecidableEq, Repr

/-- Initial interceptor state: isRefreshing = false, empty queue. -/
def idleState : CoordState := ⟨false, [], none, 0⟩

/-- What the interceptor does with one failed response. -/
inductive Outcome where
  | rejectOriginal
  | enqueued
  | startedRenewal
deriving DecidableEq, Repr

/-- The error branch of apiClient.interceptors.response.use, run when a
response with the given status arrives for req. Mirrors lines 28-75 of
src/frontend/src/api/index.ts: only a 401 on a non-refresh url is handled;
a request already marked _retry is rejected; while isRefreshing the request
is pushed on failedQueue; otherwise the request is marked _retry,
isRefreshing is set and the renewal call is issued. -/
def interceptError (s : CoordState) (status : Nat) (req : Req) :
    CoordState × Outcome :=
  if status = 401 ∧ req.url ≠ refreshUrl then
    if req.retry then
      (s, Outcome.rejectOriginal)
    else if s.isRefreshing then
      ({ s with failedQueue := s.failedQueue ++ [req] }, Outcome.enqueued)
    else
      ({ s with isRefreshing := true,
                triggering := some { req with retry := true },
                renewalCalls := s.renewalCalls + 1 }, Outcome.startedRenewal)
  else
    (s, Outcome.rejectOriginal)

/-- Completion of a successful renewal call: processQueue(null) resolves
every queued promise (each replays its request, in FIFO enqueue order,
as resolution order is microtask order), the triggering request is
replayed, and the finally block clears isRefreshing. The replay of the
triggering request is issued synchronously, before the queued microtasks
run, so it comes first in the list of replays. Returns the new state and
the replayed requests in network-issue order. -/
def renewalSucceeds (s : CoordState) : CoordState × List Req :=
  ({ isRefreshing := false, failedQueue := [], triggering := none,
     renewalCalls := s.renewalCalls },
   s.triggering.toList ++ s.failedQueue)

/-- Completion of a failed renewal call with error e: processQueue(err)
rejects every queued promise with the refresh error, then the triggering
caller is rejected with the same error; the finally block clears
isRefreshing. Returns the new state and each rejected request paired with
the error it was rejected with. -/
def renewalFails (s : CoordState) (e : Nat) : CoordState × List (Req × Nat) :=
  ({ isRefreshing := false, failedQueue := [], triggering := none,
     renewalCalls := s.renewalCalls },
   (s.failedQueue ++ s.triggering.toList).map (fun r => (r, e)))

/-- Folding a burst of 401 responses for fresh requests through the
interceptor, in the order the responses are processed by the event loop. -/
def observe401All (s : CoordState) (reqs : List Req) : CoordState :=
  reqs.foldl (fun st r => (interceptError st 401 r).1) s

/- ----------------------------------------------------------------
   Auth store (src/frontend/src/stores/authStore.ts).
   ---------------------------------------------------------------- -/

/-- The auth store state plus the module-level proactive-refresh timer
handle (refreshIntervalId): timerActive records whether the interval is
currently set. -/
structure AuthState where
  user : Option String
  isLoggedIn : Bool
  isLoading : Bool
  timerActive : Bool
deriving DecidableEq, Repr

/-- The logout action (authStore.ts lines 117-127): stops the proactive
refresh interval, posts /user/logout/ (server outcome irrelevant: the
finally block always runs) and clears user and isLoggedIn. -/
def logout (_a : AuthState) : AuthState :=
  { user := none, isLoggedIn := false, isLoading := false,
    timerActive := false }

/-- The catch branch of the refreshing interceptor (api/index.ts lines
60-71): reject the queue and the triggering caller with the refresh error,
and call logout only when the user was logged in. -/
def onRenewalFailure (s : CoordState) (a : AuthState) (e : Nat) :
    CoordState × AuthState × List (Req × Nat) :=
  let r := renewalFails s e
  (r.1, if a.isLoggedIn then logout a else a, r.2)

/- ----------------------------------------------------------------
   Cart store (src/frontend/src/stores/useCartStore.ts).
   ---------------------------------------------------------------- -/

/-- Product payload carried inside a cart line. The source's
price_with_discount is a JS number holding a decimal price; it is carried
through mutations untouched, modelled as a rational. -/
structure Product where
  id : Nat
  title : String
  price_with_discount : ℚ
  thumbnail : Option String
deriving DecidableEq, Repr

/-- One cart line: id may be null for a guest cart. The quantity is a JS
number, modelled as an integer. -/
structure CartItem where
  id : Option Nat
  product : Product
  quantity : Int
deriving DecidableEq, Repr

/-- items.reduce((sum, item) => sum + item.quantity, 0). -/
def sumQuantities (items : List CartItem) : Int :=
  items.foldl (fun sum item => sum + item.quantity) 0

/-- The cart store's state fields. -/
structure CartState where
  items : List CartItem
  total_items : Int
  isLoading : Bool
  error : Option String
deriving DecidableEq, Repr

/-- The store's initial state. -/
def initialCartState : CartState := ⟨[], 0, false, none⟩

/-- fetchCart when the GET /carts/ succeeds with data. -/
def fetchCartOk (_s : CartState) (data : List CartItem) : CartState :=
  { items := data, total_items := sumQuantities data,
    isLoading := false, error := none }

/-- fetchCart when the GET /carts/ fails. -/
def fetchCartFail (s : CartState) : CartState :=
  { s with isLoading := false, error := some "Не удалось загрузить корзину" }

/-- The optimistic half of updateItemQuantity (lines 65-72): map the
matching line to the new quantity, drop lines whose quantity is not
positive, store the recomputed total. -/
def updateOptimistic (s : CartState) (productId : Nat) (quantity : Int) :
    CartState :=
  let newItems :=
    (s.items.map (fun item =>
        if item.product.id = productId then { item with quantity := quantity }
        else item)).filter
      (fun item => decide (0 < item.quantity))
  { s with items := newItems, total_items := sumQuantities newItems }

/-- The catch branch shared by updateItemQuantity and removeFromCart:
set({items: originalItems, total_items: originalItems.reduce(...)}). -/
def rollbackTo (s : CartState) (originalItems : List CartItem) : CartState :=
  { s with items := originalItems,
           total_items := sumQuantities originalItems }

/-- updateItemQuantity run to completion, with commitOk recording whether
the PATCH /carts/productId/ succeeded. -/
def updateItemQuantity (s : CartState) (productId : Nat) (quantity : Int)
    (commitOk : Bool) : CartState :=
  let originalItems := s.items
  let s1 := updateOptimistic s productId quantity
  if commitOk then s1 else rollbackTo s1 originalItems

/-- The optimistic half of removeFromCart (lines 86-89). -/
def removeOptimistic (s : CartState) (productId : Nat) : CartState :=
  let newItems := s.items.filter (fun item => decide (item.product.id ≠ productId))
  { s with items := newItems, total_items := sumQuantities newItems }

/-- removeFromCart run to completion, with commitOk recording whether the
DELETE /carts/delete/productId/ succeeded. -/
def removeFromCart (s : CartState) (productId : Nat) (commitOk : Bool) :
    CartState :=
  let originalItems := s.items
  let s1 := removeOptimistic s productId
  if commitOk then s1 else rollbackTo s1 originalItems

/-- addToCart run to completion: on POST success it re-fetches the cart
(whose own network result is fetchResult); on POST failure it stores the
error message. -/
def addToCart (s : CartState) (postOk : Bool)
    (fetchResult : Option (List CartItem)) (errMsg : String) : CartState :=
  let s0 := { s with isLoading := true }
  if postOk then
    match fetchResult with
    | some data => fetchCartOk s0 data
    | none => fetchCartFail s0
  else
    { s0 with isLoading := false, error := some errMsg }

/-- One completed cart-store operation together with its network outcome. -/
inductive CartOp where
  | fetchOk (data : List CartItem)
  | fetchFail
  | add (postOk : Bool) (fetchResult : Option (List CartItem)) (errMsg : String)
  | update (productId : Nat) (quantity : Int) (commitOk : Bool)
  | remove (productId : Nat) (commitOk : Bool)

/-- Apply one completed operation to the store. -/
def applyCartOp (s : CartState) : CartOp → CartState
  | CartOp.fetchOk data => fetchCartOk s data
  | CartOp.fetchFail => fetchCartFail s
  | CartOp.add p f e => addToCart s p f e
  | CartOp.update pid q ok => updateItemQuantity s pid q ok
  | CartOp.remove pid ok => removeFromCart s pid ok

/-- Run a sequence of completed operations from a starting state. -/
def runCart (s : CartState) (ops : List CartOp) : CartState :=
  ops.foldl applyCartOp s

/-- The implicit store invariant: total_items is the sum of the stored
line quantities. -/
def cartInvariant (s : CartState) : Prop :=
  s.total_items = sumQuantities s.items

/- ----------------------------------------------------------------
   Interleaving model of the store: in-flight commits.
   An optimistic mutation applies synchronously and its network commit
   stays pending until the event loop delivers its response.
   ---------------------------------------------------------------- -/

/-- A commit call that has been issued but whose response has not yet been
processed: the PATCH payload and the originalItems snapshot its catch
branch would restore. -/
structure PendingCommit where
  productId : Nat
  quantity : Int
  originalItems : List CartItem
deriving DecidableEq, Repr

/-- The store together with its in-flight commits and the log of PATCH
payloads issued so far. -/
structure StoreWorld where
  cart : CartState
  pending : List PendingCommit
deriving DecidableEq, Repr

/-- Calling updateItemQuantity: the synchronous prefix of the source
function runs to the await point, namely the optimistic apply, and the
PATCH is issued immediately and unconditionally (there is no check on
pending commits for the same key). -/
def issueUpdate (w : StoreWorld) (pid : Nat) (q : Int) : StoreWorld :=
  { cart := updateOptimistic w.cart pid q,
    pending := w.pending ++
      [{ productId := pid, quantity := q, originalItems := w.cart.items }] }

/-- Deliver the response of the oldest in-flight commit: its continuation
either drops the snapshot (success) or restores it (failure). -/
def resolveOldest (w : StoreWorld) (ok : Bool) : StoreWorld :=
  match w.pending with
  | [] => w
  | c :: rest =>
    if ok then { w with pending := rest }
    else { cart := rollbackTo w.cart c.originalItems, pending := rest }

/-- Number of in-flight commits for one product key. -/
def pendingFor (w : StoreWorld) (pid : Nat) : Nat :=
  (w.pending.filter (fun c => decide (c.productId = pid))).length

/-- The per-key serialization property the spec asserts of the store: a
second mutation on a key is issued only after the first's commit resolved,
so two back-to-back issues on one key never leave two commits in flight. -/
def SerializedPerKey : Prop :=
  ∀ (w : StoreWorld) (pid : Nat) (q1 q2 : Int),
    pendingFor (issueUpdate (issueUpdate w pid q1) pid q2) pid ≤ 1

/- ----------------------------------------------------------------
   Debounced quantity edits: useDebounce + CartItemRow
   (src/components/CartItemRow.tsx).
   ---------------------------------------------------------------- -/

/-- Modelled from the spec: the useDebounce hook imported by CartItemRow
(src/hooks/useDebounce.ts is not in the source tree; only its caller is).
Per the spec's DebouncedValue and Debounce Buffer contract, each edit
cancels any pending quiet-window timer and starts a new one holding the
new value; only the last value within the window survives. -/
structure DebounceBuffer where
  latestValue : Int
  timerPending : Bool
deriving DecidableEq, Repr

/-- One edit: supersede the pending timer with the new value. -/
def editValue (_d : DebounceBuffer) (v : Int) : DebounceBuffer :=
  { latestValue := v, timerPending := true }

/-- A burst of edits issued faster than the quiet window: every edit lands
before any timer fires. -/
def applyBurst (d : DebounceBuffer) (vs : List Int) : DebounceBuffer :=
  vs.foldl editValue d

/-- The PATCH quantities CartItemRow issues for a burst of edits followed
by one quiet-window expiry: the debounced value becomes the buffer's last
value, and the component's effect calls updateItemQuantity only when the
debounced value differs from the store's item.quantity. -/
def burstCommits (itemQuantity : Int) (vs : List Int) : List Int :=
  let d := applyBurst { latestValue := itemQuantity, timerPending := false } vs
  if d.timerPending then
    if d.latestValue ≠ itemQuantity then [d.latestValue] else []
  else []

/-- CartItemRow's local state and debounce wiring: localQuantity is the
useState initialised from item.quantity and rendered in the quantity span;
debounced is the useDebounce output the commit effect watches. -/
structure CartRow where
  localQuantity : Int
  buffer : DebounceBuffer
  debounced : Int
deriving DecidableEq, Repr

/-- A freshly mounted row for a line with the given confirmed quantity. -/
def initRow (q : Int) : CartRow := ⟨q, ⟨q, false⟩, q⟩

/-- The quantity the store currently holds for a product, as the item prop
the row receives from CartPage's items.map. -/
def itemQuantityIn (s : CartState) (pid : Nat) : Option Int :=
  (s.items.find? (fun item => decide (item.product.id = pid))).map CartItem.quantity

/-- The row, the store, the in-flight commits and the PATCH log. -/
structure RowWorld where
  row : CartRow
  cart : CartState
  inFlight : List PendingCommit
  patches : List Int
deriving DecidableEq, Repr

/-- Atomic events of the row's event loop. -/
inductive RowEvent where
  | tapIncr
  | tapDecr
  | quietElapse
  | effectRun
  | commitFails
  | commitOk
deriving DecidableEq, Repr

/-- One event of the row world for the line with key pid.
tapIncr / tapDecr are handleIncrement / handleDecrement (bounds 20 and 1),
each restarting the debounce timer with the new local value; quietElapse
publishes the buffered value as the debounced value; effectRun is the
component's useEffect body: when the debounced value differs from the
item.quantity prop it calls updateItemQuantity, whose synchronous prefix
applies optimistically and issues the PATCH; commitFails / commitOk
deliver the oldest in-flight commit's response. Nothing ever writes
localQuantity except the two tap handlers. -/
def stepRow (pid : Nat) (w : RowWorld) : RowEvent → RowWorld
  | RowEvent.tapIncr =>
      if w.row.localQuantity < 20 then
        let q := w.row.localQuantity + 1
        { w with row := { localQuantity := q,
                          buffer := editValue w.row.buffer q,
                          debounced := w.row.debounced } }
      else w
  | RowEvent.tapDecr =>
      if 1 < w.row.localQuantity then
        let q := w.row.localQuantity - 1
        { w with row := { localQuantity := q,
                          buffer := editValue w.row.buffer q,
                          debounced := w.row.debounced } }
      else w
  | RowEvent.quietElapse =>
      if w.row.buffer.timerPending then
        { w with row := { w.row with
                          debounced := w.row.buffer.latestValue,
                          buffer := { w.row.buffer with timerPending := false } } }
      else w
  | RowEvent.effectRun =>
      match itemQuantityIn w.cart pid with
      | some q =>
          if w.row.debounced ≠ q then
            { w with cart := updateOptimistic w.cart pid w.row.debounced,
                     inFlight := w.inFlight ++
                       [{ productId := pid, quantity := w.row.debounced,
                          originalItems := w.cart.items }],
                     patches := w.patches ++ [w.row.debounced] }
          else w
      | none => w
  | RowEvent.commitFails =>
      match w.inFlight with
      | [] => w
      | c :: rest =>
          { w with cart := rollbackTo w.cart c.originalItems,
                   inFlight := rest }
  | RowEvent.commitOk =>
      match w.inFlight with
      | [] => w
      | _ :: rest => { w with inFlight := rest }

/-- Run a sequence of row events. -/
def runRow (pid : Nat) (w : RowWorld) (es : List RowEvent) : RowWorld :=
  es.foldl (stepRow pid) w

/-- A concrete cart line at confirmed quantity 1 (Scenario C). -/
def demoItem : CartItem :=
  ⟨some 7, ⟨1, "demo", 10, none⟩, 1⟩

/-- A row world for demoItem freshly fetched: store holds quantity 1, the
row just mounted. -/
def demoRowWorld : RowWorld :=
  ⟨initRow 1, ⟨[demoItem], 1, false, none⟩, [], []⟩

/-- Scenario C's event sequence: five + taps within the quiet window, the
window elapses, the effect issues the PATCH, the PATCH is rejected. -/
def scenarioC : List RowEvent :=
  [RowEvent.tapIncr, RowEvent.tapIncr, RowEvent.tapIncr, RowEvent.tapIncr,
   RowEvent.tapIncr, RowEvent.quietElapse, RowEvent.effectRun,
   RowEvent.commitFails]

/-- A concrete request set for witnesses: three fresh authenticated calls. -/
def demoReqs : List Req :=
  [⟨1, "/carts/", false⟩, ⟨2, "/wishlists/", false⟩, ⟨3, "/user/profile/", false⟩]

/-- A concrete triggering request that has been marked _retry. -/
def demoTrigReq : Req := ⟨10, "/carts/", true⟩

/-- A concrete queued request, never marked. -/
def demoQueuedReq : Req := ⟨11, "/wishlists/", false⟩

/-- A coordinator state in the middle of a renewal episode. -/
def demoCoordRefreshing : CoordState :=
  ⟨true, [demoQueuedReq], some demoTrigReq, 1⟩

/-- An authenticated session with the proactive timer running. -/
def demoAuthLoggedIn : AuthState := ⟨some "alice", true, false, true⟩

/- ----------------------------------------------------------------
   Theorems.
   ---------------------------------------------------------------- -/

/-- While a renewal is in flight, fresh 401 failures only append to the
queue, in arrival order. -/
theorem observe401All_refreshing (reqs : List Req) :
    ∀ s : CoordState, s.isRefreshing = true →
    (∀ r ∈ reqs, r.retry = false ∧ r.url ≠ refreshUrl) →
    observe401All s reqs = { s with failedQueue := s.failedQueue ++ reqs } := by
  induction reqs with
  | nil => intro s _ _; simp [observe401All]
  | cons r t ih =>
      intro s hs hf
      have hr := hf r (by simp)
      have hstep : (interceptError s 401 r).1 =
          { s with failedQueue := s.failedQueue ++ [r] } := by
        simp [interceptError, hr.1, hr.2, hs]
      have hrw : observe401All s (r :: t)
          = observe401All (interceptError s 401 r).1 t := rfl
      rw [hrw, hstep, ih _ (by simp [hs]) (fun x hx => hf x (by simp [hx]))]
      simp

/-- Claim C1: for a set of concurrent calls that each first fail with 401,
processed by the event loop in submission order from the idle interceptor
state, exactly one renewal network call is issued for the episode, every
call failing while the renewal is in flight is enqueued on failedQueue (the
queue ends up holding exactly the calls after the first, in FIFO order),
and on renewal success the replayed requests are exactly the submitted
calls in their original submission order. -/
theorem single_renewal_fifo_replay (reqs : List Req)
    (h0 : reqs ≠ [])
    (hf : ∀ r ∈ reqs, r.retry = false ∧ r.url ≠ refreshUrl) :
    (observe401All idleState reqs).renewalCalls = 1 ∧
    (observe401All idleState reqs).failedQueue = reqs.tail ∧
    (renewalSucceeds (observe401All idleState reqs)).2.map Req.id
      = reqs.map Req.id := by
  match reqs, h0 with
  | r :: t, _ =>
    have hr := hf r (by simp)
    have hstep : (interceptError idleState 401 r).1 =
        { isRefreshing := true, failedQueue := [],
          triggering := some { r with retry := true }, renewalCalls := 1 } := by
      simp [interceptError, hr.1, hr.2, idleState]
    have hrun : observe401All idleState (r :: t) =
        { isRefreshing := true, failedQueue := t,
          triggering := some { r with retry := true }, renewalCalls := 1 } := by
      have h1 : observe401All idleState (r :: t)
          = observe401All (interceptError idleState 401 r).1 t := rfl
      rw [h1, hstep,
        observe401All_refreshing t _ rfl (fun x hx => hf x (by simp [hx]))]
      simp
    rw [hrun]
    refine ⟨rfl, rfl, ?_⟩
    simp [renewalSucceeds]

/-- Witness for claim C1 at a concrete three-call episode. -/
theorem single_renewal_fifo_replay_witness :
    (observe401All idleState demoReqs).renewalCalls = 1 ∧
    (observe401All idleState demoReqs).failedQueue = demoReqs.tail ∧
    (renewalSucceeds (observe401All idleState demoReqs)).2.map Req.id
      = demoReqs.map Req.id :=
  single_renewal_fifo_replay demoReqs (by decide) (by decide)

/-- Claim C6: when the renewal call fails, the queued pending requests and
the triggering request are all rejected with the renewal's failure, and a
forced logout (session cleared, proactive timer stopped) happens exactly
when the session was previously authenticated. -/
theorem renewal_failure_rejects_and_logs_out (s : CoordState) (a : AuthState)
    (e : Nat) (t : Req) (ht : s.triggering = some t) :
    (onRenewalFailure s a e).2.2
      = (s.failedQueue ++ [t]).map (fun r => (r, e)) ∧
    (∀ p ∈ (onRenewalFailure s a e).2.2, p.2 = e) ∧
    (a.isLoggedIn = true →
      (onRenewalFailure s a e).2.1.isLoggedIn = false ∧
      (onRenewalFailure s a e).2.1.user = none ∧
      (onRenewalFailure s a e).2.1.timerActive = false) ∧
    (a.isLoggedIn = false → (onRenewalFailure s a e).2.1 = a) := by
  refine ⟨?_, ?_, ?_, ?_⟩
  · simp [onRenewalFailure, renewalFails, ht]
  · intro p hp
    simp [onRenewalFailure, renewalFails, List.mem_map] at hp
    rcases hp with ⟨r, -, rfl⟩ | ⟨r, -, rfl⟩ <;> rfl
  · intro hl; simp [onRenewalFailure, hl, logout]
  · intro hl; simp [onRenewalFailure, hl]

/-- Witness for claim C6 at a concrete refreshing state with one queued
request and an authenticated session. -/
theorem renewal_failure_rejects_and_logs_out_witness :
    (onRenewalFailure demoCoordRefreshing demoAuthLoggedIn 401).2.2
      = (demoCoordRefreshing.failedQueue ++ [demoTrigReq]).map (fun r => (r, 401)) ∧
    (∀ p ∈ (onRenewalFailure demoCoordRefreshing demoAuthLoggedIn 401).2.2,
      p.2 = 401) ∧
    (demoAuthLoggedIn.isLoggedIn = true →
      (onRenewalFailure demoCoordRefreshing demoAuthLoggedIn 401).2.1.isLoggedIn = false ∧
      (onRenewalFailure demoCoordRefreshing demoAuthLoggedIn 401).2.1.user = none ∧
      (onRenewalFailure demoCoordRefreshing demoAuthLoggedIn 401).2.1.timerActive = false) ∧
    (demoAuthLoggedIn.isLoggedIn = false →
      (onRenewalFailure demoCoordRefreshing demoAuthLoggedIn 401).2.1 = demoAuthLoggedIn) :=
  renewal_failure_rejects_and_logs_out demoCoordRefreshing demoAuthLoggedIn 401
    demoTrigReq rfl

/-- Claim C7: a 401 on the renewal call itself is rejected without any
retry, and a request already marked as retried once that fails 401 again is
rejected immediately; in both cases the interceptor state (in particular
the renewal-call counter) is untouched, so no second renewal is issued. -/
theorem refresh_and_retried_requests_not_renewed (s : CoordState) (req : Req) :
    (req.url = refreshUrl →
      interceptError s 401 req = (s, Outcome.rejectOriginal)) ∧
    (req.retry = true →
      interceptError s 401 req = (s, Outcome.rejectOriginal)) := by
  constructor
  · intro h; simp [interceptError, h]
  · intro h
    by_cases hu : req.url = refreshUrl
    · simp [interceptError, hu]
    · simp [interceptError, hu, h]

/-- Witness for claim C7: the renewal call itself, and an already-retried
request, both rejected with no state change. -/
theorem refresh_and_retried_requests_not_renewed_witness :
    interceptError demoCoordRefreshing 401 ⟨20, refreshUrl, false⟩
      = (demoCoordRefreshing, Outcome.rejectOriginal) ∧
    interceptError demoCoordRefreshing 401 ⟨21, "/carts/", true⟩
      = (demoCoordRefreshing, Outcome.rejectOriginal) :=
  ⟨(refresh_and_retried_requests_not_renewed demoCoordRefreshing
      ⟨20, refreshUrl, false⟩).1 rfl,
   (refresh_and_retried_requests_not_renewed demoCoordRefreshing
      ⟨21, "/carts/", true⟩).2 rfl⟩

/-- Claim C8: a request enqueued while a renewal is in flight is replayed
after renewal success still unmarked (only the episode's triggering request
gets the retry mark), so when its replay fails 401 again against the now
idle interceptor it starts a new renewal episode instead of being rejected
immediately. -/
theorem queued_replay_unmarked_starts_new_episode (s : CoordState) (r : Req)
    (hr : r.retry = false) (hu : r.url ≠ refreshUrl)
    (hs : s.isRefreshing = true) :
    r ∈ (renewalSucceeds (interceptError s 401 r).1).2 ∧
    (interceptError (renewalSucceeds (interceptError s 401 r).1).1 401 r).2
      = Outcome.startedRenewal ∧
    (interceptError (renewalSucceeds (interceptError s 401 r).1).1 401 r).1.renewalCalls
      = s.renewalCalls + 1 := by
  have hstep : (interceptError s 401 r).1 =
      { s with failedQueue := s.failedQueue ++ [r] } := by
    simp [interceptError, hr, hu, hs]
  rw [hstep]
  refine ⟨?_, ?_, ?_⟩
  · simp [renewalSucceeds]
  · simp [renewalSucceeds, interceptError, hr, hu]
  · simp [renewalSucceeds, interceptError, hr, hu]

/-- Witness for claim C8 at a concrete refreshing state and a concrete
fresh request. -/
theorem queued_replay_unmarked_starts_new_episode_witness :
    demoQueuedReq ∈
      (renewalSucceeds (interceptError demoCoordRefreshing 401 demoQueuedReq).1).2 ∧
    (interceptError
      (renewalSucceeds (interceptError demoCoordRefreshing 401 demoQueuedReq).1).1
      401 demoQueuedReq).2 = Outcome.startedRenewal ∧
    (interceptError
      (renewalSucceeds (interceptError demoCoordRefreshing 401 demoQueuedReq).1).1
      401 demoQueuedReq).1.renewalCalls = demoCoordRefreshing.renewalCalls + 1 :=
  queued_replay_unmarked_starts_new_episode demoCoordRefreshing demoQueuedReq
    rfl (by decide) rfl

/-- Each completed cart operation preserves the total-equals-sum
invariant. -/
theorem applyCartOp_invariant (s : CartState) (op : CartOp)
    (h : cartInvariant s) : cartInvariant (applyCartOp s op) := by
  cases op with
  | fetchOk data => simp [applyCartOp, fetchCartOk, cartInvariant]
  | fetchFail => simpa [applyCartOp, fetchCartFail, cartInvariant] using h
  | add p f e =>
      cases p
      · simpa [applyCartOp, addToCart, cartInvariant] using h
      · cases f with
        | none => simpa [applyCartOp, addToCart, fetchCartFail, cartInvariant] using h
        | some data => simp [applyCartOp, addToCart, fetchCartOk, cartInvariant]
  | update pid q ok =>
      cases ok
      · simp [applyCartOp, updateItemQuantity, rollbackTo, cartInvariant]
      · simp [applyCartOp, updateItemQuantity, updateOptimistic, cartInvariant]
  | remove pid ok =>
      cases ok
      · simp [applyCartOp, removeFromCart, rollbackTo, cartInvariant]
      · simp [applyCartOp, removeFromCart, removeOptimistic, cartInvariant]

/-- Runs of completed cart operations preserve the invariant. -/
theorem runCart_invariant (ops : List CartOp) :
    ∀ s : CartState, cartInvariant s → cartInvariant (runCart s ops) := by
  induction ops with
  | nil => intro s h; simpa [runCart] using h
  | cons op t ih =>
      intro s h
      have hstep : runCart s (op :: t) = runCart (applyCartOp s op) t := rfl
      rw [hstep]
      exact ih _ (applyCartOp_invariant s op h)

/-- Claim C9: after every sequence of completed cart-store operations from
the initial state the stored total_items equals the sum of the stored line
quantities, and the same holds already at the optimistic apply point of a
quantity update or a removal, whatever state it is applied to. -/
theorem cart_total_matches_sum :
    (∀ ops : List CartOp, cartInvariant (runCart initialCartState ops)) ∧
    (∀ (s : CartState) (pid : Nat) (q : Int),
      cartInvariant (updateOptimistic s pid q)) ∧
    (∀ (s : CartState) (pid : Nat), cartInvariant (removeOptimistic s pid)) := by
  refine ⟨fun ops => runCart_invariant ops initialCartState ?_, ?_, ?_⟩
  · simp [cartInvariant, initialCartState, sumQuantities]
  · intro s pid q; simp [cartInvariant, updateOptimistic]
  · intro s pid; simp [cartInvariant, removeOptimistic]

/-- Claim C2: when the commit of a quantity update or a removal is
rejected, the store ends up exactly equal to the state captured before the
optimistic apply, in every reachable state (those satisfying the
total-equals-sum invariant, by claim C9): no field differs. -/
theorem rollback_restores_snapshot_exactly (s : CartState) (pid : Nat)
    (q : Int) (h : cartInvariant s) :
    updateItemQuantity s pid q false = s ∧ removeFromCart s pid false = s := by
  obtain ⟨items, total, loading, err⟩ := s
  simp [cartInvariant] at h
  constructor
  · simp [updateItemQuantity, updateOptimistic, rollbackTo, h]
  · simp [removeFromCart, removeOptimistic, rollbackTo, h]

/-- A concrete cart holding demoItem, satisfying the invariant. -/
def demoCart : CartState := ⟨[demoItem], 1, false, none⟩

/-- Witness for claim C2 at a concrete one-line cart. -/
theorem rollback_restores_snapshot_exactly_witness :
    updateItemQuantity demoCart 1 5 false = demoCart ∧
    removeFromCart demoCart 1 false = demoCart :=
  rollback_restores_snapshot_exactly demoCart 1 5 (by unfold cartInvariant; decide)

/-- Mapping the matched line to a non-positive quantity and then keeping
only positive-quantity lines is the same as dropping the matched line and
any non-positive line. -/
theorem map_filter_nonpos (pid : Nat) (q : Int) (hq : q ≤ 0) :
    ∀ l : List CartItem,
      ((l.map (fun item =>
          if item.product.id = pid then { item with quantity := q }
          else item)).filter (fun item => decide (0 < item.quantity)))
      = l.filter (fun item =>
          decide (item.product.id ≠ pid) && decide (0 < item.quantity)) := by
  intro l
  induction l with
  | nil => rfl
  | cons a t ih =>
      by_cases hid : a.product.id = pid
      · have hq' : ¬ (0 < q) := not_lt.mpr hq
        simp [List.filter_cons, hid, hq', ih]
      · by_cases hpos : 0 < a.quantity
        · simp [List.filter_cons, hid, hpos, ih]
        · simp [List.filter_cons, hid, hpos, ih]

/-- Claim C10: updating a line to a non-positive quantity optimistically
removes that line (together with any line whose quantity is not positive,
since lines are filtered to positive quantities), while the PATCH commit is
still issued and carries exactly the given quantity value. -/
theorem nonpositive_quantity_removes_line (w : StoreWorld) (pid : Nat)
    (q : Int) (hq : q ≤ 0) :
    (updateOptimistic w.cart pid q).items
      = w.cart.items.filter (fun item =>
          decide (item.product.id ≠ pid) && decide (0 < item.quantity)) ∧
    (issueUpdate w pid q).pending
      = w.pending ++
        [{ productId := pid, quantity := q, originalItems := w.cart.items }] := by
  refine ⟨?_, rfl⟩
  simpa [updateOptimistic] using map_filter_nonpos pid q hq w.cart.items

/-- A second concrete cart line for another product. -/
def demoItem2 : CartItem := ⟨some 8, ⟨2, "other", 5, none⟩, 2⟩

/-- A concrete two-line store world with no commit in flight. -/
def demoWorld : StoreWorld := ⟨⟨[demoItem, demoItem2], 3, false, none⟩, []⟩

/-- Witness for claim C10: setting the first line to quantity 0 removes it
locally and still issues the PATCH with quantity 0. -/
theorem nonpositive_quantity_removes_line_witness :
    (updateOptimistic demoWorld.cart 1 0).items
      = demoWorld.cart.items.filter (fun item =>
          decide (item.product.id ≠ 1) && decide (0 < item.quantity)) ∧
    (issueUpdate demoWorld 1 0).pending
      = demoWorld.pending ++
        [{ productId := 1, quantity := 0, originalItems := demoWorld.cart.items }] :=
  nonpositive_quantity_removes_line demoWorld 1 0 (by decide)

/-- Claim C3 counterexample: the store does not serialize two back-to-back
mutations on the same item key; issuing a second quantity update while the
first commit is unresolved leaves two commits for that key in flight, so
the claimed per-key serialization property is false. -/
theorem same_key_serialization_fails : ¬ SerializedPerKey :=
  fun h => absurd (h ⟨initialCartState, []⟩ 1 2 3) (by decide)

/-- Claim C3 amended: two optimistic mutations issued back-to-back on the
same key are not serialized: both commits are in flight at once. The
second's snapshot is the state after the first's optimistic apply (the
applies run synchronously at issue time, so the second never applies
against the stale pre-first snapshot), but if the first commit is then
rejected, its rollback restores the pre-first snapshot and discards the
second's apply. -/
theorem same_key_commits_overlap (w : StoreWorld) (pid : Nat) (q1 q2 : Int)
    (hw : w.pending = []) :
    pendingFor (issueUpdate (issueUpdate w pid q1) pid q2) pid = 2 ∧
    ((issueUpdate (issueUpdate w pid q1) pid q2).pending.map
        PendingCommit.originalItems)
      = [w.cart.items, (issueUpdate w pid q1).cart.items] ∧
    (resolveOldest (issueUpdate (issueUpdate w pid q1) pid q2) false).cart.items
      = w.cart.items := by
  refine ⟨?_, ?_, ?_⟩ <;>
    simp [pendingFor, issueUpdate, resolveOldest, rollbackTo, hw]

/-- Witness for the amended claim C3 at a concrete one-line world. -/
theorem same_key_commits_overlap_witness :
    pendingFor (issueUpdate (issueUpdate ⟨demoCart, []⟩ 1 2) 1 3) 1 = 2 ∧
    ((issueUpdate (issueUpdate ⟨demoCart, []⟩ 1 2) 1 3).pending.map
        PendingCommit.originalItems)
      = [demoCart.items, (issueUpdate ⟨demoCart, []⟩ 1 2).cart.items] ∧
    (resolveOldest (issueUpdate (issueUpdate ⟨demoCart, []⟩ 1 2) 1 3) false).cart.items
      = demoCart.items :=
  same_key_commits_overlap ⟨demoCart, []⟩ 1 2 3 rfl

/-- Claim C4: for any burst of quantity edits issued faster than the quiet
window whose final value v differs from the store's confirmed quantity,
exactly one commit call is issued after the window, and it carries only v:
every superseded intermediate value of the burst is dropped. -/
theorem debounce_coalesces_burst (itemQuantity v : Int) (ws : List Int)
    (hne : v ≠ itemQuantity) :
    burstCommits itemQuantity (ws ++ [v]) = [v] := by
  have hfold : applyBurst { latestValue := itemQuantity, timerPending := false }
      (ws ++ [v]) = { latestValue := v, timerPending := true } := by
    simp [applyBurst, List.foldl_append, editValue]
  simp [burstCommits, hfold, hne]

/-- Witness for claim C4: the spec's burst of edits to 2, 3 and then 4 on a
line confirmed at 1 issues exactly one commit, carrying 4. -/
theorem debounce_coalesces_burst_witness :
    burstCommits 1 ([2, 3] ++ [4]) = [4] :=
  debounce_coalesces_burst 1 4 [2, 3] (by decide)

/-- Claim C5 (evaluation at the failing input): in Scenario C, a line
confirmed at quantity 1 receives five + taps, the quiet window elapses, one
PATCH with quantity 6 is issued, and the PATCH is rejected. The store rolls
back to quantity 1, but the quantity the row displays, its local state, is
still 6 and not the last confirmed value 1: nothing ever writes the local
state back after a rollback. -/
theorem rejected_commit_display_not_reverted :
    (runRow 1 demoRowWorld scenarioC).patches = [6] ∧
    itemQuantityIn (runRow 1 demoRowWorld scenarioC).cart 1 = some 1 ∧
    (runRow 1 demoRowWorld scenarioC).row.localQuantity = 6 ∧
    (runRow 1 demoRowWorld scenarioC).row.localQuantity ≠ 1 ∧
    (runRow 1 demoRowWorld
        (scenarioC ++ [RowEvent.effectRun])).patches = [6, 6] := by
  refine ⟨?_, ?_, ?_, ?_, ?_⟩ <;> decide

end Marketplace
